import Mathlib

/-!
Shallow embedding of the pothole-report ingestion workflow of the
katyufigyelo repository.

The repository bundles three React `App` variants around one shared Supabase
table `potholes`:

* `V1` — the tap-flow submit of the first `App.tsx` variant (App.tsx lines
  69-87): inserts a record at the tapped coordinates (without a
  `road_position` field), alerts only on error, and succeeds silently.
* `V2` — the address-flow submit of the second `App.tsx` variant (App.tsx
  lines 220-277): trims city and street, searches with `ilike` +
  `maybeSingle`, increments via the `increment_pothole_count` RPC on a hit,
  geocodes via Nominatim on a miss and inserts with `reports_count = 1`.
* `V21` — the address-flow submit of `src/unnamed/part_000` (lines 42-106):
  same shape, but the city segment is not trimmed, the first character of
  the key is upper-cased, the search uses `ilike` + `limit(1)`, and the
  increment is a client-side read-modify-write `update`.

External collaborators are modelled explicitly, following the spec's §6
description of the `potholes` table (the hosted store itself is not part of
the sources): the store is the list of its rows, insert appends a row,
update rewrites the rows selected by id, and each fallible backend call
carries an optional injected error in `Env`.  The geocoder response is
either a network failure (carrying the thrown message) or the candidate
list of the Nominatim search.  JavaScript `parseFloat` is abstracted as a
parameter `pf : String → ℚ`: every claim about coordinates is a pure
data-flow claim, so nothing depends on the numeric semantics of the parse.
-/

/-- ASCII lower-casing, character by character, over `String.data`: the
model of the case folding performed by SQL `ILIKE` and it evaluates inside
the kernel (the built-in `String.toLower` does not reduce there). -/
def lowerStr (s : String) : String := String.mk (s.data.map Char.toLower)

/-- Whitespace recognised by JavaScript `String.prototype.trim` (ASCII
part, which is all the workflow ever feeds it). -/
def isSpaceChar (c : Char) : Bool := c = ' ' || c = '\t' || c = '\n' || c = '\r'

/-- Strip leading and trailing whitespace from a character list. -/
def trimChars (l : List Char) : List Char :=
  ((l.dropWhile isSpaceChar).reverse.dropWhile isSpaceChar).reverse

/-- JavaScript `s.trim()`. -/
def trimStr (s : String) : String := String.mk (trimChars s.data)

/-- JavaScript `s.charAt(0).toUpperCase() + s.slice(1)` from part_000 line
50 ("Szép formázás"). -/
def capitalizeFirst (s : String) : String :=
  match s.data with
  | [] => ""
  | c :: cs => String.mk (Char.toUpper c :: cs)

/-- JavaScript `a || b` on a report count read back from the store: `0` and
SQL `NULL` are falsy (`NULL` is modelled as `0`).  part_000 line 68 writes
`(existing.reports_count || 1) + 1`. -/
def jsOrNat (a b : Nat) : Nat := if a = 0 then b else a

/-- A token of a SQL LIKE pattern: `%` (any sequence), `_` (any single
character), a literal character (possibly produced by a backslash escape),
or the never-matching token produced by a trailing escape character (which
Postgres rejects as an invalid pattern). -/
inductive LikeTok
  | anySeq
  | anyOne
  | lit (c : Char)
  | bad
deriving DecidableEq, Repr

/-- Tokenize a LIKE pattern.  The boolean flag records that the previous
character was an unconsumed backslash escape. -/
def likeTokensAux : Bool → List Char → List LikeTok
  | false, [] => []
  | false, c :: rest =>
    if c = '\\' then likeTokensAux true rest
    else if c = '%' then LikeTok.anySeq :: likeTokensAux false rest
    else if c = '_' then LikeTok.anyOne :: likeTokensAux false rest
    else LikeTok.lit c :: likeTokensAux false rest
  | true, [] => [LikeTok.bad]
  | true, c :: rest => LikeTok.lit c :: likeTokensAux false rest

/-- Run a tokenized LIKE pattern against a string.  The `fuel` argument
makes the recursion structural so that it evaluates in the kernel; each
step consumes a token or a character, so any `fuel` exceeding
`tokens.length + string.length` computes the exact LIKE semantics (`anySeq`
either matches the empty sequence or swallows one character and retries). -/
def likeRunFuel : Nat → List LikeTok → List Char → Bool
  | 0, _, _ => false
  | _ + 1, [], s => s.isEmpty
  | fuel + 1, t :: ts, s =>
    match t with
    | LikeTok.anySeq =>
      likeRunFuel fuel ts s ||
        (match s with
         | [] => false
         | _ :: srest => likeRunFuel fuel (LikeTok.anySeq :: ts) srest)
    | LikeTok.anyOne =>
      (match s with
       | [] => false
       | _ :: srest => likeRunFuel fuel ts srest)
    | LikeTok.lit c =>
      (match s with
       | [] => false
       | d :: srest => (c == d) && likeRunFuel fuel ts srest)
    | LikeTok.bad => false

/-- SQL LIKE on character lists (pattern on the left). -/
def likeMatch (ps s : List Char) : Bool :=
  likeRunFuel (ps.length + s.length + 1) (likeTokensAux false ps) s

/-- The PostgREST row filter `.ilike('location_desc', pat)` used by both
address-flow variants (App.tsx line 233, part_000 line 57): Postgres ILIKE,
i.e. LIKE after case folding both sides, with the submitted key used
directly as the pattern. -/
def ilikeMatch (pat s : String) : Bool :=
  likeMatch (lowerStr pat).data (lowerStr s).data

/-- A persisted row of the `potholes` table (spec §6).  `road_position` is
optional because the tap-flow insert omits it and the repository's own
`Report` interface declares it optional.  `created_at` is store-assigned
and never read by any workflow, so it is not modelled. -/
structure Report where
  id : Nat
  lat : ℚ
  lng : ℚ
  location_desc : String
  road_position : Option String
  reports_count : Nat
deriving DecidableEq, Repr

/-- part_000 lines 54-58: `select ... .ilike('location_desc', key).limit(1)`
— the first matching row of the store, if any. -/
def findFirstIlike (pat : String) (store : List Report) : Option Report :=
  store.find? (fun r => ilikeMatch pat r.location_desc)

/-- App.tsx lines 230-234: `select ... .ilike('location_desc', key)
.maybeSingle()` — `none` when no row matches, the row when exactly one
does, and a PostgREST error when several match. -/
def maybeSingleFind (pat : String) (store : List Report) :
    Except String (Option Report) :=
  match store.filter (fun r => ilikeMatch pat r.location_desc) with
  | [] => Except.ok none
  | [r] => Except.ok (some r)
  | _ => Except.error "JSON object requested, multiple (or no) rows returned"

/-- part_000 line 32 (`fetchReports`): `select('*').order('reports_count',
ascending: false)` — the full snapshot ordered by descending report
count. -/
def orderByCountDesc (store : List Report) : List Report :=
  store.mergeSort (fun a b => Nat.ble b.reports_count a.reports_count)

/-- JavaScript truthiness of an optional environment string: `undefined`
and the empty string are falsy. -/
def truthyStr : Option String → Bool
  | none => false
  | some s => !(s == "")

/-- supabaseClient.ts lines 12-16: the client handle is non-null exactly
when both `VITE_SUPABASE_URL` and `VITE_SUPABASE_ANON_KEY` are truthy; the
check runs at module load, before any workflow step. -/
def isSupabaseConfigured (url key : Option String) : Bool :=
  truthyStr url && truthyStr key

/-- What the top-level component renders. -/
inductive Screen
  | configMissingBanner
  | mainUI
deriving DecidableEq, Repr

/-- App.tsx lines 90-100 (first variant) and 557-572 (third variant): when
the supabase handle is null the app renders a full-screen
configuration-missing banner instead of the map UI. -/
def AppTsx.render (configured : Bool) : Screen :=
  if configured then Screen.mainUI else Screen.configMissingBanner

/-- part_000 renders the map UI unconditionally: it has no banner for the
unconfigured state, and its submit guard (line 44) returns silently. -/
def V21.render (_configured : Bool) : Screen := Screen.mainUI

/-- The second App.tsx variant — the address flow, whose render starts at
line 279 — also shows the map UI unconditionally: unlike the first and
third variants it has no configuration-missing banner, and its submit
guard (line 222) is the same silent bare return as part_000's. -/
def V2.render (_configured : Bool) : Screen := Screen.mainUI

/-- One candidate of the Nominatim search response: `lat` and `lon` are
numeric strings (spec §6). -/
structure GeoCandidate where
  lat : String
  lon : String
deriving DecidableEq, Repr

/-- One submission's external world: whether the backend is configured, the
injected error (if any) of each fallible Supabase call, the geocoder's
answer (`Except.error` = the fetch threw, carrying the error message), and
the id the store assigns to a newly inserted row. -/
structure Env where
  configured : Bool
  findErr : Option String
  updateErr : Option String
  insertErr : Option String
  geo : Except String (List GeoCandidate)
  newId : Nat
deriving Repr

/-- Terminal outcome of one submit invocation. -/
inductive Outcome
  | guardRejected
  | incremented (newCount : Nat)
  | inserted
  | addressNotFound
  | dbError (msg : String)
deriving DecidableEq, Repr

/-- Everything observable after one submit invocation: the outcome, the
resulting store contents, the `alert` messages shown (in order), and
whether the full-list refetch (`fetchReports`) ran. -/
structure SubmitResult where
  outcome : Outcome
  store : List Report
  alerts : List String
  refetched : Bool
deriving DecidableEq, Repr

/-- App.tsx lines 69-87, the tap-flow `handleSubmit`: guard on the tapped
coordinates and the supabase handle (a bare `return`), insert the row
(without `road_position`), alert only on error, refetch only on success —
the success path shows no alert. -/
def V1.handleSubmit (configured : Bool) (newCoords : Option (ℚ × ℚ))
    (desc : String) (insertErr : Option String) (newId : Nat)
    (store : List Report) : SubmitResult :=
  match newCoords with
  | none => ⟨Outcome.guardRejected, store, [], false⟩
  | some coords =>
    if configured = false then ⟨Outcome.guardRejected, store, [], false⟩
    else
      match insertErr with
      | some e => ⟨Outcome.dbError e, store, ["Hiba: " ++ e], false⟩
      | none =>
        ⟨Outcome.inserted,
         store ++ [⟨newId, coords.1, coords.2, desc, none, 1⟩],
         [], true⟩

/-- App.tsx line 227: the dedup key of the second variant,
`city.trim() + ", " + address.trim()`. -/
def V2.fullAddress (city address : String) : String :=
  trimStr city ++ ", " ++ trimStr address

/-- Modelled from the spec: the SQL function `increment_pothole_count`
invoked through `supabase.rpc` at App.tsx line 240 is not among the
repository sources; per spec §4.3/§6 it is the server-side atomic
increment `reports_count = reports_count + 1` of the row with the given
id, applied to the row's current value in one step. -/
def rpcIncrementCount (c : Nat) : Nat := c + 1

/-- App.tsx lines 220-277, the address-flow `handleSubmit` of the second
variant: silent guard on empty street / null handle, `ilike` +
`maybeSingle` search, RPC increment on a hit, Nominatim lookup and insert
on a miss; every thrown error is caught and alerted with the "Hiba: "
prefix; `fetchReports` runs only after a successful increment or insert. -/
def V2.handleSubmit (pf : String → ℚ) (env : Env)
    (city address roadPos : String) (store : List Report) : SubmitResult :=
  if address = "" ∨ env.configured = false then
    ⟨Outcome.guardRejected, store, [], false⟩
  else
    match env.findErr with
    | some e => ⟨Outcome.dbError e, store, ["Hiba: " ++ e], false⟩
    | none =>
      match maybeSingleFind (V2.fullAddress city address) store with
      | Except.error e => ⟨Outcome.dbError e, store, ["Hiba: " ++ e], false⟩
      | Except.ok (some existing) =>
        match env.updateErr with
        | some e => ⟨Outcome.dbError e, store, ["Hiba: " ++ e], false⟩
        | none =>
          ⟨Outcome.incremented (existing.reports_count + 1),
           store.map (fun r =>
             if r.id = existing.id then
               { r with reports_count := rpcIncrementCount r.reports_count }
             else r),
           ["Köszönjük! Ezt a kátyút már " ++ toString (existing.reports_count + 1)
              ++ " alkalommal jelentették ezen a helyen."],
           true⟩
      | Except.ok none =>
        match env.geo with
        | Except.error e => ⟨Outcome.dbError e, store, ["Hiba: " ++ e], false⟩
        | Except.ok [] =>
          ⟨Outcome.addressNotFound, store,
           ["Nem találom ezt a címet a térképen!"], false⟩
        | Except.ok (g :: _) =>
          match env.insertErr with
          | some e => ⟨Outcome.dbError e, store, ["Hiba: " ++ e], false⟩
          | none =>
            ⟨Outcome.inserted,
             store ++ [⟨env.newId, pf g.lat, pf g.lon,
                        V2.fullAddress city address, some roadPos, 1⟩],
             ["Új kátyú rögzítve!"], true⟩

/-- part_000 lines 49-50: the dedup key of the V2.1 variant — the city is
NOT trimmed, the street is, and the first character of the composition is
upper-cased. -/
def V21.fullAddress (city address : String) : String :=
  capitalizeFirst (city ++ ", " ++ trimStr address)

/-- part_000 lines 42-106, the address-flow `handleSubmit` of the V2.1
variant: silent guard on empty street / null handle, `ilike` + `limit(1)`
search taking the first matching row, client-side read-modify-write
`update` writing `(existing.reports_count || 1) + 1` on a hit, Nominatim
lookup and insert on a miss; thrown errors are caught and alerted with the
"Adatbázis hiba: " prefix; `fetchReports` runs only after a successful
increment or insert. -/
def V21.handleSubmit (pf : String → ℚ) (env : Env)
    (city address roadPos : String) (store : List Report) : SubmitResult :=
  if address = "" ∨ env.configured = false then
    ⟨Outcome.guardRejected, store, [], false⟩
  else
    match env.findErr with
    | some e => ⟨Outcome.dbError e, store, ["Adatbázis hiba: " ++ e], false⟩
    | none =>
      match findFirstIlike (V21.fullAddress city address) store with
      | some existing =>
        match env.updateErr with
        | some e => ⟨Outcome.dbError e, store, ["Adatbázis hiba: " ++ e], false⟩
        | none =>
          ⟨Outcome.incremented (existing.reports_count + 1),
           store.map (fun r =>
             if r.id = existing.id then
               { r with reports_count := jsOrNat existing.reports_count 1 + 1 }
             else r),
           ["Sikeresen frissítve! Ez már a(z) "
              ++ toString (existing.reports_count + 1)
              ++ ". bejelentés erre a helyre."],
           true⟩
      | none =>
        match env.geo with
        | Except.error e =>
          ⟨Outcome.dbError e, store, ["Adatbázis hiba: " ++ e], false⟩
        | Except.ok [] =>
          ⟨Outcome.addressNotFound, store,
           ["A címet nem sikerült beazonosítani a térképen!"], false⟩
        | Except.ok (g :: _) =>
          match env.insertErr with
          | some e =>
            ⟨Outcome.dbError e, store, ["Adatbázis hiba: " ++ e], false⟩
          | none =>
            ⟨Outcome.inserted,
             store ++ [⟨env.newId, pf g.lat, pf g.lon,
                        V21.fullAddress city address, some roadPos, 1⟩],
             ["Új kátyú sikeresen rögzítve!"], true⟩

/-- State of the part_000 increment (lines 54-72) decomposed for
concurrency analysis: the stored count of the matched row, plus the count
each of two concurrent clients A and B has read so far.  The SELECT at line
57 is the read; the UPDATE at line 68 writes `(read || 1) + 1` back. -/
structure RmwState where
  count : Nat
  localA : Option Nat
  localB : Option Nat
deriving DecidableEq, Repr

/-- The four atomic actions of two concurrent part_000 increments. -/
inductive RmwAct
  | readA
  | readB
  | writeA
  | writeB
deriving DecidableEq, Repr

/-- One atomic step of the interleaved execution (a write by a client that
has not read yet is a no-op; well-formed schedules read first). -/
def rmwStep (s : RmwState) : RmwAct → RmwState
  | RmwAct.readA => { s with localA := some s.count }
  | RmwAct.readB => { s with localB := some s.count }
  | RmwAct.writeA =>
    match s.localA with
    | some c => { s with count := jsOrNat c 1 + 1 }
    | none => s
  | RmwAct.writeB =>
    match s.localB with
    | some c => { s with count := jsOrNat c 1 + 1 }
    | none => s

/-- Final stored count after running an interleaving of the two clients'
actions from initial count `c0`. -/
def runRmw (acts : List RmwAct) (c0 : Nat) : Nat :=
  (acts.foldl rmwStep ⟨c0, none, none⟩).count

/-- A LIKE pattern without `%`, `_` or `\` tokenizes to literal tokens. -/
theorem likeTokensAux_no_meta (ps : List Char)
    (h : ∀ c ∈ ps, c ≠ '%' ∧ c ≠ '_' ∧ c ≠ '\\') :
    likeTokensAux false ps = ps.map LikeTok.lit := by
  induction ps with
  | nil => rfl
  | cons c cs ih =>
    obtain ⟨h1, h2, h3⟩ := h c (List.mem_cons_self _ _)
    have hr : ∀ x ∈ cs, x ≠ '%' ∧ x ≠ '_' ∧ x ≠ '\\' :=
      fun x hx => h x (List.mem_cons_of_mem _ hx)
    simp only [likeTokensAux, if_neg h3, if_neg h1, if_neg h2, ih hr, List.map]

/-- Running a pattern of literal tokens is equality of character lists
(given sufficient fuel). -/
theorem likeRunFuel_all_lit (fuel : Nat) : ∀ (cs ss : List Char),
    cs.length + ss.length < fuel →
    (likeRunFuel fuel (cs.map LikeTok.lit) ss = true ↔ cs = ss) := by
  induction fuel with
  | zero => intro cs ss hlen; omega
  | succ fuel ih =>
    intro cs ss hlen
    cases cs with
    | nil => cases ss <;> simp [likeRunFuel]
    | cons c cs =>
      cases ss with
      | nil => simp [likeRunFuel, List.map]
      | cons d ds =>
        have hlen2 : cs.length + ds.length < fuel := by
          simp [List.length_cons] at hlen; omega
        simp [likeRunFuel, List.map, ih cs ds hlen2, List.cons.injEq]

/-- LIKE without metacharacters in the pattern is plain equality. -/
theorem likeMatch_no_meta (ps ss : List Char)
    (h : ∀ c ∈ ps, c ≠ '%' ∧ c ≠ '_' ∧ c ≠ '\\') :
    likeMatch ps ss = true ↔ ps = ss := by
  unfold likeMatch
  rw [likeTokensAux_no_meta ps h]
  exact likeRunFuel_all_lit (ps.length + ss.length + 1) ps ss (by omega)

/-- C1 (amended): in the address flow, a submission whose normalized key
matches an existing row in the sense the code computes — the `ilike` +
`limit(1)` search, which for keys free of the pattern metacharacters `%`,
`_`, `\` coincides with case-insensitive equality — inserts no new row:
the store keeps its length, the matched row's `reports_count` grows by
exactly 1 (given the spec invariant `reportCount >= 1`), every coordinate
pair is left untouched, and the reported outcome carries the new count.
The original claim, quantified over case-insensitive equality itself, is
refuted by backslash-containing keys (see the counterexample). -/
theorem C1_match_increments_in_place
    (pf : String → ℚ) (env : Env) (city address roadPos : String)
    (store : List Report) (ex : Report)
    (haddr : address ≠ "") (hconf : env.configured = true)
    (hfind : env.findErr = none)
    (hmatch : findFirstIlike (V21.fullAddress city address) store = some ex)
    (hupd : env.updateErr = none)
    (hcount : 1 ≤ ex.reports_count) :
    (V21.handleSubmit pf env city address roadPos store).store
        = store.map (fun r =>
            if r.id = ex.id then { r with reports_count := ex.reports_count + 1 }
            else r) ∧
    (V21.handleSubmit pf env city address roadPos store).store.length
        = store.length ∧
    (V21.handleSubmit pf env city address roadPos store).outcome
        = Outcome.incremented (ex.reports_count + 1) ∧
    (V21.handleSubmit pf env city address roadPos store).store.map
        (fun r => (r.lat, r.lng))
        = store.map (fun r => (r.lat, r.lng)) := by
  have hguard : ¬(address = "" ∨ env.configured = false) := by
    simp [haddr, hconf]
  have hc0 : ¬ ex.reports_count = 0 := by omega
  simp only [V21.handleSubmit, if_neg hguard, hfind, hmatch, hupd, jsOrNat,
    if_neg hc0]
  refine ⟨trivial, by simp, trivial, ?_⟩
  simp only [List.map_map]
  apply List.map_congr_left
  intro r _
  by_cases hid : r.id = ex.id <;> simp [hid]

/-- C1 witness: a concrete matching resubmission. -/
theorem C1_witness :
    (V21.handleSubmit (fun _ => (0 : ℚ))
        ⟨true, none, none, none, Except.ok [], 5⟩
        "Budapest" "Fő utca 3" "center"
        [⟨1, 10, 20, "budapest, fő utca 3", some "center", 3⟩]).outcome
      = Outcome.incremented 4 ∧
    (V21.handleSubmit (fun _ => (0 : ℚ))
        ⟨true, none, none, none, Except.ok [], 5⟩
        "Budapest" "Fő utca 3" "center"
        [⟨1, 10, 20, "budapest, fő utca 3", some "center", 3⟩]).store.length
      = 1 := by
  have h := C1_match_increments_in_place (fun _ => (0 : ℚ))
      ⟨true, none, none, none, Except.ok [], 5⟩ "Budapest" "Fő utca 3" "center"
      [⟨1, 10, 20, "budapest, fő utca 3", some "center", 3⟩]
      ⟨1, 10, 20, "budapest, fő utca 3", some "center", 3⟩
      (by decide) rfl rfl (by decide) rfl (by decide)
  exact ⟨h.2.2.1, h.2.1⟩

/-- C1 counterexample: a normalized key containing a backslash is
case-insensitively equal to a stored description, yet Postgres ILIKE
treats the backslash as an escape, so the find misses; the submission then
geocodes and inserts a duplicate row, leaving the matched record's count
unincremented — the claim is false as stated. -/
theorem C1_counterexample :
    lowerStr (V21.fullAddress "A\\b" "c") = lowerStr "a\\b, c" ∧
    ilikeMatch (V21.fullAddress "A\\b" "c") "a\\b, c" = false ∧
    (V21.handleSubmit (fun _ => (0 : ℚ))
        ⟨true, none, none, none, Except.ok [⟨"47", "19"⟩], 2⟩
        "A\\b" "c" "center"
        [⟨1, 10, 20, "a\\b, c", some "center", 3⟩]).outcome
      = Outcome.inserted ∧
    (V21.handleSubmit (fun _ => (0 : ℚ))
        ⟨true, none, none, none, Except.ok [⟨"47", "19"⟩], 2⟩
        "A\\b" "c" "center"
        [⟨1, 10, 20, "a\\b, c", some "center", 3⟩]).store.map
        (fun r => r.reports_count)
      = [3, 1] := by
  exact ⟨by decide, by decide, by decide, by decide⟩

/-- C2: in the address flow, a valid submission with no existing match and
a non-empty geocoding candidate list creates exactly one new row, appended
to the store, with `reports_count = 1` and coordinates equal to the
`parseFloat` of the first candidate's `lat`/`lon` strings. -/
theorem C2_no_match_inserts_geocoded
    (pf : String → ℚ) (env : Env) (city address roadPos : String)
    (store : List Report) (g : GeoCandidate) (rest : List GeoCandidate)
    (haddr : address ≠ "") (hconf : env.configured = true)
    (hfind : env.findErr = none)
    (hmatch : maybeSingleFind (V2.fullAddress city address) store = Except.ok none)
    (hgeo : env.geo = Except.ok (g :: rest))
    (hins : env.insertErr = none) :
    (V2.handleSubmit pf env city address roadPos store).store
        = store ++ [⟨env.newId, pf g.lat, pf g.lon,
                     V2.fullAddress city address, some roadPos, 1⟩] ∧
    (V2.handleSubmit pf env city address roadPos store).store.length
        = store.length + 1 ∧
    (V2.handleSubmit pf env city address roadPos store).outcome
        = Outcome.inserted := by
  have hguard : ¬(address = "" ∨ env.configured = false) := by
    simp [haddr, hconf]
  simp only [V2.handleSubmit, if_neg hguard, hfind, hmatch, hgeo, hins]
  refine ⟨trivial, by simp, trivial⟩

/-- C2 witness: a concrete fresh submission resolved by the geocoder. -/
theorem C2_witness :
    (V2.handleSubmit (fun s => (s.length : ℚ))
        ⟨true, none, none, none, Except.ok [⟨"47.51", "19.05"⟩], 9⟩
        "Budapest" "Váci út 12" "center" []).store.length = 0 + 1 ∧
    (V2.handleSubmit (fun s => (s.length : ℚ))
        ⟨true, none, none, none, Except.ok [⟨"47.51", "19.05"⟩], 9⟩
        "Budapest" "Váci út 12" "center" []).outcome = Outcome.inserted := by
  have h := C2_no_match_inserts_geocoded (fun s => (s.length : ℚ))
      ⟨true, none, none, none, Except.ok [⟨"47.51", "19.05"⟩], 9⟩
      "Budapest" "Váci út 12" "center" [] ⟨"47.51", "19.05"⟩ []
      (by decide) rfl rfl rfl rfl rfl
  exact ⟨h.2.1, h.2.2⟩

/-- C3: in the address flow, when there is no existing match and the
geocoder returns an empty candidate list, nothing is inserted, nothing is
incremented (the store is unchanged), no refetch happens, and the run ends
in the address-not-found outcome with its user message. -/
theorem C3_geocode_miss_no_side_effect
    (pf : String → ℚ) (env : Env) (city address roadPos : String)
    (store : List Report)
    (haddr : address ≠ "") (hconf : env.configured = true)
    (hfind : env.findErr = none)
    (hmatch : maybeSingleFind (V2.fullAddress city address) store = Except.ok none)
    (hgeo : env.geo = Except.ok []) :
    (V2.handleSubmit pf env city address roadPos store).store = store ∧
    (V2.handleSubmit pf env city address roadPos store).refetched = false ∧
    (V2.handleSubmit pf env city address roadPos store).outcome
        = Outcome.addressNotFound ∧
    (V2.handleSubmit pf env city address roadPos store).alerts
        = ["Nem találom ezt a címet a térképen!"] := by
  have hguard : ¬(address = "" ∨ env.configured = false) := by
    simp [haddr, hconf]
  simp only [V2.handleSubmit, if_neg hguard, hfind, hmatch, hgeo]
  exact ⟨trivial, trivial, trivial, trivial⟩

/-- C3 witness: a concrete unresolvable fresh address. -/
theorem C3_witness :
    (V2.handleSubmit (fun _ => (0 : ℚ))
        ⟨true, none, none, none, Except.ok [], 2⟩
        "Budapest" "Nemlétező utca 99" "center" []).store = ([] : List Report) ∧
    (V2.handleSubmit (fun _ => (0 : ℚ))
        ⟨true, none, none, none, Except.ok [], 2⟩
        "Budapest" "Nemlétező utca 99" "center" []).outcome
      = Outcome.addressNotFound := by
  have h := C3_geocode_miss_no_side_effect (fun _ => (0 : ℚ))
      ⟨true, none, none, none, Except.ok [], 2⟩
      "Budapest" "Nemlétező utca 99" "center" []
      (by decide) rfl rfl rfl rfl
  exact ⟨h.1, h.2.2.1⟩

/-- C4 (amended): the matcher feeds the composed key to SQL ILIKE as a
pattern, so a stored description matches exactly when the case-folded
pattern LIKE-matches the case-folded description; whenever the key
contains none of the pattern metacharacters `%`, `_`, `\`, this is
precisely case-insensitive string equality. -/
theorem C4_ilike_without_wildcards_is_equality (pat s : String)
    (h : ∀ c ∈ (lowerStr pat).data, c ≠ '%' ∧ c ≠ '_' ∧ c ≠ '\\') :
    ilikeMatch pat s = true ↔ lowerStr pat = lowerStr s := by
  unfold ilikeMatch
  rw [likeMatch_no_meta _ _ h]
  exact ⟨fun hd => String.ext hd, fun he => by rw [he]⟩

/-- C4 witness: a metacharacter-free key matches case-insensitively. -/
theorem C4_witness :
    ilikeMatch "Budapest, Vaci ut 12" "BUDAPEST, VACI UT 12" = true :=
  (C4_ilike_without_wildcards_is_equality "Budapest, Vaci ut 12"
      "BUDAPEST, VACI UT 12" (by decide)).mpr (by decide)

/-- C4 counterexample: a key containing `%` ILIKE-matches a stored
description it is not case-insensitively equal to, so "matches if and only
if case-insensitively exactly equal" is false as stated. -/
theorem C4_counterexample :
    ilikeMatch (V2.fullAddress "Bu%" "x") "Buda, x" = true ∧
    ¬ lowerStr (V2.fullAddress "Bu%" "x") = lowerStr "Buda, x" ∧
    findFirstIlike (V2.fullAddress "Bu%" "x")
        [⟨1, 10, 20, "Buda, x", some "center", 1⟩]
      = some ⟨1, 10, 20, "Buda, x", some "center", 1⟩ := by
  exact ⟨by decide, by decide, by decide⟩

/-- C5 counterexample: two concurrent part_000 increments of the same row,
interleaved read-read-write-write from stored count 5, leave the count at
6 — an increase of 1, not 2 — so the claim that the increment is atomic is
false for the client-side read-modify-write update. -/
theorem C5_counterexample :
    runRmw [RmwAct.readA, RmwAct.readB, RmwAct.writeA, RmwAct.writeB] 5 = 6 ∧
    ¬ (6 : Nat) = 5 + 2 := by
  exact ⟨by decide, by decide⟩

/-- C5 (amended): the RPC increment of the App.tsx variant (modelled from
the spec as a server-side atomic step) does raise the count by exactly 2
under two increments, while the part_000 read-modify-write update admits
an interleaving of two concurrent increments that raises the stored count
by only 1 (for any stored count satisfying the `reportCount >= 1`
invariant). -/
theorem C5_rpc_atomic_but_update_races :
    (∀ c : Nat, rpcIncrementCount (rpcIncrementCount c) = c + 2) ∧
    (∀ c : Nat, 1 ≤ c →
      runRmw [RmwAct.readA, RmwAct.readB, RmwAct.writeA, RmwAct.writeB] c
        = c + 1) := by
  constructor
  · intro c; rfl
  · intro c hc
    have hc0 : ¬ c = 0 := by omega
    simp [runRmw, rmwStep, jsOrNat, hc0]

/-- C5 witness: both parts of the amended statement at count 5. -/
theorem C5_witness :
    rpcIncrementCount (rpcIncrementCount 5) = 5 + 2 ∧
    runRmw [RmwAct.readA, RmwAct.readB, RmwAct.writeA, RmwAct.writeB] 5
      = 5 + 1 :=
  ⟨C5_rpc_atomic_but_update_races.1 5,
   C5_rpc_atomic_but_update_races.2 5 (by decide)⟩

/-- C6 counterexample: the tap-flow submit's successful insert is a
terminal outcome that produces zero notifications, so the claim that every
terminal outcome produces exactly one notification is false. -/
theorem C6_counterexample :
    (V1.handleSubmit true (some (47, 19)) "Kátyú a sarkon" none 3 []).outcome
      = Outcome.inserted ∧
    (V1.handleSubmit true (some (47, 19)) "Kátyú a sarkon" none 3 []).alerts
      = [] := ⟨rfl, rfl⟩

/-- C6 (amended): in the part_000 address flow, every run past the silent
input guard — increment success, insert success, address-not-found, and
every caught error — shows exactly one alert. -/
theorem C6_address_flow_alerts_once
    (pf : String → ℚ) (env : Env) (city address roadPos : String)
    (store : List Report)
    (haddr : address ≠ "") (hconf : env.configured = true) :
    (V21.handleSubmit pf env city address roadPos store).alerts.length = 1 := by
  have hguard : ¬(address = "" ∨ env.configured = false) := by
    simp [haddr, hconf]
  simp only [V21.handleSubmit, if_neg hguard]
  cases hf : env.findErr with
  | some e => simp
  | none =>
    cases hm : findFirstIlike (V21.fullAddress city address) store with
    | some ex =>
      cases hu : env.updateErr with
      | some e => simp
      | none => simp
    | none =>
      cases hg : env.geo with
      | error e => simp
      | ok gs =>
        cases gs with
        | nil => simp
        | cons g rest =>
          cases hi : env.insertErr with
          | some e => simp
          | none => simp

/-- C6 witness: a concrete fresh-address run shows one alert. -/
theorem C6_witness :
    (V21.handleSubmit (fun _ => (0 : ℚ))
        ⟨true, none, none, none, Except.ok [⟨"46.25", "20.15"⟩], 8⟩
        "Szeged" "Kossuth utca 1" "edge" []).alerts.length = 1 :=
  C6_address_flow_alerts_once (fun _ => (0 : ℚ))
    ⟨true, none, none, none, Except.ok [⟨"46.25", "20.15"⟩], 8⟩
    "Szeged" "Kossuth utca 1" "edge" [] (by decide) rfl

/-- C7 counterexample: with the backend unconfigured, both address-flow
submits — the second App.tsx variant and part_000 — refuse to run but show
no notification at all, and both variants render the normal map UI with no
configuration-missing banner; so the claim that every ingestion entry
point signals the configuration-missing state rather than silently doing
nothing is false. -/
theorem C7_counterexample :
    (V21.handleSubmit (fun _ => (0 : ℚ))
        ⟨false, none, none, none, Except.ok [], 0⟩
        "Budapest" "Kossuth utca 1" "center" []).alerts = [] ∧
    (V21.handleSubmit (fun _ => (0 : ℚ))
        ⟨false, none, none, none, Except.ok [], 0⟩
        "Budapest" "Kossuth utca 1" "center" []).outcome
      = Outcome.guardRejected ∧
    (V2.handleSubmit (fun _ => (0 : ℚ))
        ⟨false, none, none, none, Except.ok [], 0⟩
        "Budapest" "Kossuth utca 1" "center" []).alerts = [] ∧
    (V2.handleSubmit (fun _ => (0 : ℚ))
        ⟨false, none, none, none, Except.ok [], 0⟩
        "Budapest" "Kossuth utca 1" "center" []).outcome
      = Outcome.guardRejected ∧
    V21.render false = Screen.mainUI ∧
    V2.render false = Screen.mainUI :=
  ⟨rfl, rfl, rfl, rfl, rfl, rfl⟩

/-- C7 (amended): a missing URL or key is detected at module load
(`isSupabaseConfigured` is false) before any workflow step, and every
address-flow entry point then refuses to operate — no store change, no
refetch, guard outcome; the first and third `App.tsx` variants surface the
state with a full-screen banner, but both address-flow variants — the
second `App.tsx` variant and part_000 — refuse silently, with no alert and
no banner. -/
theorem C7_unconfigured_refuses
    (pf : String → ℚ) (env : Env) (city address roadPos : String)
    (store : List Report) (hconf : env.configured = false) :
    (V21.handleSubmit pf env city address roadPos store).store = store ∧
    (V21.handleSubmit pf env city address roadPos store).refetched = false ∧
    (V21.handleSubmit pf env city address roadPos store).outcome
        = Outcome.guardRejected ∧
    (V21.handleSubmit pf env city address roadPos store).alerts = [] ∧
    (V2.handleSubmit pf env city address roadPos store).store = store ∧
    (V2.handleSubmit pf env city address roadPos store).refetched = false ∧
    (V2.handleSubmit pf env city address roadPos store).outcome
        = Outcome.guardRejected ∧
    (V2.handleSubmit pf env city address roadPos store).alerts = [] ∧
    AppTsx.render false = Screen.configMissingBanner ∧
    V2.render false = Screen.mainUI ∧
    V21.render false = Screen.mainUI ∧
    (∀ key : Option String, isSupabaseConfigured none key = false) ∧
    (∀ url : Option String, isSupabaseConfigured url none = false) := by
  have hguard : address = "" ∨ env.configured = false := Or.inr hconf
  simp only [V21.handleSubmit, V2.handleSubmit, if_pos hguard]
  refine ⟨trivial, trivial, trivial, trivial, trivial, trivial, trivial,
    trivial, rfl, rfl, rfl, fun key => rfl, fun url => ?_⟩
  simp [isSupabaseConfigured, truthyStr]

/-- C7 witness: a concrete unconfigured run leaves the store alone and
shows no alert in either address flow, while the App.tsx banner variants
render the configuration-missing screen. -/
theorem C7_witness :
    (V21.handleSubmit (fun _ => (0 : ℚ))
        ⟨false, none, none, none, Except.ok [], 1⟩
        "Pécs" "Hunyadi út 2" "center" []).store = ([] : List Report) ∧
    (V2.handleSubmit (fun _ => (0 : ℚ))
        ⟨false, none, none, none, Except.ok [], 1⟩
        "Pécs" "Hunyadi út 2" "center" []).alerts = ([] : List String) ∧
    AppTsx.render false = Screen.configMissingBanner := by
  have h := C7_unconfigured_refuses (fun _ => (0 : ℚ))
      ⟨false, none, none, none, Except.ok [], 1⟩
      "Pécs" "Hunyadi út 2" "center" [] rfl
  obtain ⟨h1, -, -, -, -, -, -, h8, h9, -, -, -, -⟩ := h
  exact ⟨h1, h8, h9⟩

/-- C8: a record inserted through the part_000 address flow with road
position `edge` is present — with its road position still `edge` — in the
ordered snapshot that the post-insert `fetchReports` retrieves from the
store. -/
theorem C8_edge_roundtrip
    (pf : String → ℚ) (env : Env) (city address : String)
    (store : List Report) (g : GeoCandidate) (rest : List GeoCandidate)
    (haddr : address ≠ "") (hconf : env.configured = true)
    (hfind : env.findErr = none)
    (hmatch : findFirstIlike (V21.fullAddress city address) store = none)
    (hgeo : env.geo = Except.ok (g :: rest))
    (hins : env.insertErr = none) :
    (V21.handleSubmit pf env city address "edge" store).refetched = true ∧
    (⟨env.newId, pf g.lat, pf g.lon, V21.fullAddress city address,
       some "edge", 1⟩ : Report) ∈
      orderByCountDesc (V21.handleSubmit pf env city address "edge" store).store ∧
    (⟨env.newId, pf g.lat, pf g.lon, V21.fullAddress city address,
       some "edge", 1⟩ : Report).road_position = some "edge" := by
  have hguard : ¬(address = "" ∨ env.configured = false) := by
    simp [haddr, hconf]
  simp only [V21.handleSubmit, if_neg hguard, hfind, hmatch, hgeo, hins]
  refine ⟨trivial, ?_, trivial⟩
  rw [orderByCountDesc, List.mem_mergeSort]
  simp

/-- C8 witness: a concrete edge-position insert and retrieval. -/
theorem C8_witness :
    (⟨4, (0 : ℚ), (0 : ℚ), V21.fullAddress "Győr" "Árpád út 9",
       some "edge", 1⟩ : Report) ∈
      orderByCountDesc (V21.handleSubmit (fun _ => (0 : ℚ))
        ⟨true, none, none, none, Except.ok [⟨"47.68", "17.63"⟩], 4⟩
        "Győr" "Árpád út 9" "edge" []).store :=
  (C8_edge_roundtrip (fun _ => (0 : ℚ))
      ⟨true, none, none, none, Except.ok [⟨"47.68", "17.63"⟩], 4⟩
      "Győr" "Árpád út 9" [] ⟨"47.68", "17.63"⟩ []
      (by decide) rfl rfl (by decide) rfl rfl).2.1

/-- C9: in the App.tsx address flow the full-list refetch runs exactly on
the two success outcomes, and every run that does not refetch — find
error, geocoding miss, geocoding network failure, increment or insert
error, guard — leaves the store, and hence the published snapshot,
unchanged. -/
theorem C9_refetch_iff_success
    (pf : String → ℚ) (env : Env) (city address roadPos : String)
    (store : List Report) :
    ((V2.handleSubmit pf env city address roadPos store).refetched = true
        ↔ (V2.handleSubmit pf env city address roadPos store).outcome
              = Outcome.inserted
          ∨ ∃ n, (V2.handleSubmit pf env city address roadPos store).outcome
              = Outcome.incremented n) ∧
    ((V2.handleSubmit pf env city address roadPos store).refetched = false
        → (V2.handleSubmit pf env city address roadPos store).store = store) := by
  by_cases hguard : address = "" ∨ env.configured = false
  · simp [V2.handleSubmit, if_pos hguard]
  · simp only [V2.handleSubmit, if_neg hguard]
    cases hf : env.findErr with
    | some e => simp
    | none =>
      cases hm : maybeSingleFind (V2.fullAddress city address) store with
      | error e => simp
      | ok o =>
        cases o with
        | some ex =>
          cases hu : env.updateErr with
          | some e => simp
          | none => simp
        | none =>
          cases hg : env.geo with
          | error e => simp
          | ok gs =>
            cases gs with
            | nil => simp
            | cons g rest =>
              cases hi : env.insertErr with
              | some e => simp
              | none => simp

/-- C9 witness: a failing run (geocoding miss) leaves the store unchanged. -/
theorem C9_witness :
    (V2.handleSubmit (fun _ => (0 : ℚ))
        ⟨true, none, none, none, Except.ok [], 2⟩
        "Sopron" "Vár utca 5" "center" []).store = ([] : List Report) :=
  (C9_refetch_iff_success (fun _ => (0 : ℚ))
      ⟨true, none, none, none, Except.ok [], 2⟩
      "Sopron" "Vár utca 5" "center" []).2 rfl

/-- C10: in the App.tsx address flow only the street field and the
configured-backend check gate a submission — the guard fires exactly when
the street is empty or the backend handle is null, so an empty city is
accepted — and with an empty city the composed dedup key starts with the
empty city segment followed by the comma separator. -/
theorem C10_only_street_and_config_gate
    (pf : String → ℚ) (env : Env) (city address roadPos : String)
    (store : List Report) :
    ((V2.handleSubmit pf env city address roadPos store).outcome
        = Outcome.guardRejected ↔ (address = "" ∨ env.configured = false)) ∧
    V2.fullAddress "" address = ", " ++ trimStr address := by
  constructor
  · constructor
    · intro h
      by_cases hguard : address = "" ∨ env.configured = false
      · exact hguard
      · exfalso
        revert h
        simp only [V2.handleSubmit, if_neg hguard]
        cases hf : env.findErr with
        | some e => simp
        | none =>
          cases hm : maybeSingleFind (V2.fullAddress city address) store with
          | error e => simp
          | ok o =>
            cases o with
            | some ex =>
              cases hu : env.updateErr with
              | some e => simp
              | none => simp
            | none =>
              cases hg : env.geo with
              | error e => simp
              | ok gs =>
                cases gs with
                | nil => simp
                | cons g rest =>
                  cases hi : env.insertErr with
                  | some e => simp
                  | none => simp
    · intro hguard
      simp [V2.handleSubmit, if_pos hguard]
  · rfl

/-- C10 witness: a concrete submission with an empty city is not rejected
by the guard, and its key begins with the comma-separated empty city
segment. -/
theorem C10_witness :
    (V2.handleSubmit (fun _ => (0 : ℚ))
        ⟨true, none, none, none, Except.ok [], 3⟩
        "" "Deák tér 1" "center" []).outcome ≠ Outcome.guardRejected ∧
    V2.fullAddress "" "Deák tér 1" = ", " ++ trimStr "Deák tér 1" := by
  have h := C10_only_street_and_config_gate (fun _ => (0 : ℚ))
      ⟨true, none, none, none, Except.ok [], 3⟩
      "" "Deák tér 1" "center" []
  refine ⟨fun hc => ?_, h.2⟩
  rcases h.1.mp hc with h1 | h1
  · exact absurd h1 (by decide)
  · exact absurd h1 (by decide)
